import Mathlib

/-!
Shallow embedding of the `radian` session recording engine.

The definitions below are translated from `SessionManager`
(src/unnamed/part_001) and from the sensor-data service
(src/lib/services/sensor-data-service.ts).  External collaborators
(the Supabase storage client, player/session metadata services) are
modelled as an oracle structure `Env` whose operations may fail with
an error message; `try { } catch { }` blocks of the source become
`match` on the oracle's `Except` result.  JavaScript numbers are
modelled as exact rationals, `Map<string, number>` as an association
list with shadowing insert, and `string | null` as `Option String`.
Execution is single-threaded and sequential, mirroring the source's
cooperative (non-parallel) concurrency model: each method runs to
completion on the state it is entered with.
-/

namespace Radian

/-- One sensor record, translated from the `SensorDataInsert` object
built in `SessionManager.addSensorData` (src/unnamed/part_001, lines
400-417). -/
structure SensorDataInsert where
  session_id : String
  device_id : String
  timestamp : ℚ
  battery_level : ℚ
  orientation_x : ℚ
  orientation_y : ℚ
  orientation_z : ℚ
  accelerometer_x : ℚ
  accelerometer_y : ℚ
  accelerometer_z : ℚ
  gyroscope_x : ℚ
  gyroscope_y : ℚ
  gyroscope_z : ℚ
  magnetometer_x : ℚ
  magnetometer_y : ℚ
  magnetometer_z : ℚ
deriving DecidableEq

/-- Oracle for all external collaborators of the engine.  Each field
models one imported service call; a `.error` result models the call
throwing. -/
structure Env where
  createSession : String → ℚ → Except String String
  addSessionPlayersBatch : String → List (String × String) → Except String Unit
  updateSession : String → ℚ → Except String Unit
  getAllPlayers : Except String (List String)
  insertMany : List SensorDataInsert → Except String Unit
  insertOne : SensorDataInsert → Except String Unit

/-- The mutable fields of class `SessionManager` (src/unnamed/part_001,
lines 24-42). -/
structure SessionManager where
  sessionId : Option String
  playerId : Option String
  isRecording : Bool
  dataBuffer : List SensorDataInsert
  bufferSize : ℕ
  lastFlushTime : ℚ
  flushInterval : ℚ
  sessionStartTime : Option ℚ
  totalPointsReceived : ℕ
  firstTimestampMap : List (String × ℚ)
  lastNormalizedTimestampMap : List (String × ℚ)
  timestampInterval : ℚ
  expectedDeviceIds : List String
  isFlushingBuffer : Bool
  pendingBuffer : List SensorDataInsert

/-- The `SessionManager` constructor (src/unnamed/part_001, lines
50-59) together with the field initializers. -/
def mkSessionManager (playerId : Option String) (bufferSize : ℕ)
    (flushInterval : ℚ) : SessionManager where
  sessionId := none
  playerId := playerId
  isRecording := false
  dataBuffer := []
  bufferSize := bufferSize
  lastFlushTime := 0
  flushInterval := flushInterval
  sessionStartTime := none
  totalPointsReceived := 0
  firstTimestampMap := []
  lastNormalizedTimestampMap := []
  timestampInterval := 1 / 50
  expectedDeviceIds := []
  isFlushingBuffer := false
  pendingBuffer := []

/-- Models `Map.get` of a JavaScript `Map<string, number>`. -/
def mapLookup : List (String × ℚ) → String → Option ℚ
  | [], _ => none
  | kv :: rest, k => if kv.1 = k then some kv.2 else mapLookup rest k

/-- Models `Map.set` of a JavaScript `Map<string, number>`, modelled as a
shadowing cons (only `mapLookup` ever reads the list). -/
def mapSet (m : List (String × ℚ)) (k : String) (v : ℚ) :
    List (String × ℚ) :=
  (k, v) :: m

/-- Models `parseFloat(x.toFixed(2))`: round to two decimal places.  All
arguments that occur in the engine are exact multiples of 1/100, on
which every rounding convention agrees. -/
def round2 (q : ℚ) : ℚ := (round (q * 100) : ℚ) / 100

/-- Models `SessionManager.normalizeTimestamp` (src/unnamed/part_001, lines
313-329).  The JavaScript `get(deviceId) || 0` agrees with
`Option.getD 0` because the only falsy number that can be stored is 0
itself. -/
def normalizeTimestamp (st : SessionManager) (deviceId : String)
    (rawTimestamp : ℚ) : SessionManager × ℚ :=
  if !(mapLookup st.firstTimestampMap deviceId).isSome then
    ({ st with
        firstTimestampMap := mapSet st.firstTimestampMap deviceId rawTimestamp,
        lastNormalizedTimestampMap :=
          mapSet st.lastNormalizedTimestampMap deviceId 0 },
      0)
  else
    let lastNormalized :=
      (mapLookup st.lastNormalizedTimestampMap deviceId).getD 0
        + st.timestampInterval
    ({ st with
        lastNormalizedTimestampMap :=
          mapSet st.lastNormalizedTimestampMap deviceId lastNormalized },
      round2 lastNormalized)

/-- Iterate `normalizeTimestamp` over a sequence of (device, raw
timestamp) calls, returning the final state and, per call, the device
paired with the returned normalized timestamp. -/
def runNormalizeAll : SessionManager → List (String × ℚ) →
    SessionManager × List (String × ℚ)
  | st, [] => (st, [])
  | st, c :: rest =>
      ((runNormalizeAll (normalizeTimestamp st c.1 c.2).1 rest).1,
        (c.1, (normalizeTimestamp st c.1 c.2).2) ::
          (runNormalizeAll (normalizeTimestamp st c.1 c.2).1 rest).2)

/-- The subsequence of normalized timestamps handed to one device. -/
def outputsFor (d : String) (outs : List (String × ℚ)) : List ℚ :=
  (outs.filter (fun p => p.1 == d)).map (fun p => p.2)

/-- Models `insertSensorDataBatch` (src/lib/services/sensor-data-service.ts,
lines 89-104).  The second component counts storage insert calls
actually issued. -/
def insertSensorDataBatch (env : Env) (batch : List SensorDataInsert) :
    Except String Bool × ℕ :=
  if batch.length = 0 then (.ok true, 0)
  else
    match env.insertMany batch with
    | .ok _ => (.ok true, 1)
    | .error e => (.error ("Failed to insert sensor data batch: " ++ e), 1)

/-- Models `insertSensorData` (src/lib/services/sensor-data-service.ts,
single-record insert). -/
def insertSensorData (env : Env) (r : SensorDataInsert) :
    Except String SensorDataInsert :=
  match env.insertOne r with
  | .ok _ => .ok r
  | .error e => .error ("Failed to insert sensor data: " ++ e)

/-- Whether the individual insert of a record succeeds under `env`. -/
def singleOk (env : Env) (r : SensorDataInsert) : Bool :=
  match insertSensorData env r with
  | .ok _ => true
  | .error _ => false

/-- Whether the batch insert of a chunk succeeds under `env`. -/
def chunkBatchOk (env : Env) (c : List SensorDataInsert) : Bool :=
  match (insertSensorDataBatch env c).1 with
  | .ok _ => true
  | .error _ => false

/-- The per-record fallback loop of `SessionManager.flushBuffer`
(src/unnamed/part_001, lines 497-504): each record of the chunk is
tried once with `insertSensorData`, a failure is caught and only
logged.  Returns the success count and the list of records passed to
`insertSensorData`, in order. -/
def insertIndividually (env : Env) :
    List SensorDataInsert → ℕ × List SensorDataInsert
  | [] => (0, [])
  | r :: rs =>
      match insertSensorData env r with
      | .ok _ =>
          ((insertIndividually env rs).1 + 1, r :: (insertIndividually env rs).2)
      | .error _ =>
          ((insertIndividually env rs).1, r :: (insertIndividually env rs).2)

/-- The chunk loop of `SessionManager.flushBuffer` (src/unnamed/part_001,
lines 487-506): per chunk, try the batch insert; on failure (caught)
fall back to `insertIndividually`.  Returns the accumulated success
count and the concatenated individual-insert call trace. -/
def processChunks (env : Env) :
    List (List SensorDataInsert) → ℕ × List SensorDataInsert
  | [] => (0, [])
  | c :: cs =>
      match (insertSensorDataBatch env c).1 with
      | .ok _ =>
          (c.length + (processChunks env cs).1, (processChunks env cs).2)
      | .error _ =>
          ((insertIndividually env c).1 + (processChunks env cs).1,
            (insertIndividually env c).2 ++ (processChunks env cs).2)

/-- The chunking loop of `SessionManager.flushBuffer`
(src/unnamed/part_001, lines 479-483): slices of `n` records. -/
def chunksOf (n : ℕ) (l : List SensorDataInsert) :
    List (List SensorDataInsert) :=
  if h : n = 0 ∨ l = [] then []
  else l.take n :: chunksOf n (l.drop n)
termination_by l.length
decreasing_by
  push_neg at h
  simp only [List.length_drop]
  exact Nat.sub_lt (List.length_pos.mpr h.2) (Nat.pos_of_ne_zero h.1)

/-- Outcome of one `flushBuffer` call: the state on return, the value
returned or error thrown, the local `totalSuccess` counter, and the
trace of individual insert calls issued. -/
structure FlushResult where
  st : SessionManager
  result : Except String Bool
  successCount : ℕ
  singleCalls : List SensorDataInsert

/-- Models `SessionManager.flushBuffer` (src/unnamed/part_001, lines 449-531).
The outer try/catch returns `true` on an insertion error and the
`finally` block merges the pending buffer and clears the single-flight
flag; both are reflected below.  `now` stands for `Date.now()`. -/
def flushBuffer (env : Env) (now : ℚ) (st : SessionManager) : FlushResult :=
  if st.isFlushingBuffer then
    ⟨st, .ok false, 0, []⟩
  else if st.dataBuffer.length = 0 then
    if st.pendingBuffer.length > 0 then
      ⟨{ st with dataBuffer := st.pendingBuffer, pendingBuffer := [] },
        .ok true, 0, []⟩
    else
      ⟨st, .ok false, 0, []⟩
  else
    let dataToFlush := st.dataBuffer
    let st1 := { st with isFlushingBuffer := true, dataBuffer := [] }
    let res := processChunks env (chunksOf 10 dataToFlush)
    let st2 := { st1 with lastFlushTime := now }
    let st3 :=
      if st2.pendingBuffer.length > 0 then
        { st2 with dataBuffer := st2.dataBuffer ++ st2.pendingBuffer,
                   pendingBuffer := [] }
      else st2
    ⟨{ st3 with isFlushingBuffer := false }, .ok true, res.1, res.2⟩

/-- JavaScript truthiness of a `string | null` value: `null` and the
empty string are falsy. -/
def optStrFalsy : Option String → Bool
  | none => true
  | some s => s == ""

/-- Models `String(data[0] || 'unknown')` (src/unnamed/part_001, line 343),
with the number-to-string conversion modelled by `toString`. -/
def deviceIdOf (data : List ℚ) : String :=
  match data.head? with
  | some q => if q == 0 then "unknown" else toString q
  | none => "unknown"

/-- Models `data[1] || Date.now()` (src/unnamed/part_001, line 390). -/
def rawTimestampOf (data : List ℚ) (now : ℚ) : ℚ :=
  match data.get? 1 with
  | some t => if t == 0 then now else t
  | none => now

/-- Models `SessionManager.addSensorData` (src/unnamed/part_001, lines
336-443).  The background `flushBuffer().catch(...)` launched when a
flush trigger fires is run inline (cooperative single-threaded
execution) with its outcome discarded, exactly as the `.catch` handler
only logs.  Every `return false` path of the source appears as a
`(st, .ok false)` branch. -/
def addSensorData (env : Env) (now : ℚ) (st : SessionManager)
    (data : List ℚ) : SessionManager × Except String Bool :=
  if !st.isRecording || optStrFalsy st.sessionId then
    (st, .ok false)
  else
    let deviceId := deviceIdOf data
    if !(st.expectedDeviceIds.contains deviceId) then
      (st, .ok false)
    else if data.length < 15 then
      (st, .ok false)
    else
      let playerIdToUse : Option String :=
        if optStrFalsy st.playerId then
          match env.getAllPlayers with
          | .ok (p :: _) => some p
          | .ok [] => none
          | .error _ => none
        else st.playerId
      if optStrFalsy playerIdToUse then
        (st, .ok false)
      else
        let rawTimestamp := rawTimestampOf data now
        let norm := normalizeTimestamp st deviceId rawTimestamp
        let st2 := { norm.1 with
          totalPointsReceived := norm.1.totalPointsReceived + 1 }
        let sensorData : SensorDataInsert :=
          { session_id := st.sessionId.getD ""
            device_id := deviceId
            timestamp := norm.2
            battery_level := data.getD 2 0
            orientation_x := data.getD 3 0
            orientation_y := data.getD 4 0
            orientation_z := data.getD 5 0
            accelerometer_x := data.getD 6 0
            accelerometer_y := data.getD 7 0
            accelerometer_z := data.getD 8 0
            gyroscope_x := data.getD 9 0
            gyroscope_y := data.getD 10 0
            gyroscope_z := data.getD 11 0
            magnetometer_x := data.getD 12 0
            magnetometer_y := data.getD 13 0
            magnetometer_z := data.getD 14 0 }
        if st2.isFlushingBuffer then
          ({ st2 with pendingBuffer := st2.pendingBuffer ++ [sensorData] },
            .ok true)
        else
          let st3 := { st2 with dataBuffer := st2.dataBuffer ++ [sensorData] }
          if st3.dataBuffer.length ≥ st3.bufferSize ∨
              now - st3.lastFlushTime ≥ st3.flushInterval then
            ((flushBuffer env now st3).st, .ok true)
          else
            (st3, .ok true)

/-- Models `name || Session ...` default session name (src/unnamed/part_001,
line 105), with the ISO date string modelled from the clock value. -/
def sessionNameOf (name : Option String) (now : ℚ) : String :=
  match name with
  | some n => if n == "" then "Session " ++ toString now else n
  | none => "Session " ++ toString now

/-- Models `SessionManager.startSession` (src/unnamed/part_001, lines 98-148).
A `createSession` failure is caught and rethrown with the state left
untouched; an `addSessionPlayersBatch` failure is caught and only
logged; the final falsy-id guard throws after the state has already
been mutated. -/
def startSession (env : Env) (now : ℚ) (name : Option String)
    (playerDeviceMappings : List (String × String)) (st : SessionManager) :
    SessionManager × Except String String :=
  if st.isRecording then
    (st, .error "Session already in progress")
  else
    match env.createSession (sessionNameOf name now) now with
    | .error e => (st, .error ("Failed to start session: " ++ e))
    | .ok id =>
        let st1 := { st with
          sessionId := some id
          isRecording := true
          dataBuffer := []
          lastFlushTime := now
          sessionStartTime := some now
          totalPointsReceived := 0
          firstTimestampMap := []
          lastNormalizedTimestampMap := []
          expectedDeviceIds := playerDeviceMappings.map (fun m => m.2)
          playerId := (playerDeviceMappings.head?).map (fun m => m.1) }
        match env.addSessionPlayersBatch id playerDeviceMappings with
        | _ =>
          if optStrFalsy st1.sessionId then
            (st1, .error "Failed to start session: Session ID was not set after creation.")
          else
            (st1, .ok id)

/-- Models `maxWaitAttempts` in `SessionManager.endSession`
(src/unnamed/part_001, line 215). -/
def maxWaitAttempts : ℕ := 100

/-- The `setTimeout` delay of the wait loop, in milliseconds
(src/unnamed/part_001, line 219). -/
def waitSleepMs : ℕ := 50

/-- Models `maxFlushAttempts` in `SessionManager.endSession`
(src/unnamed/part_001, line 235). -/
def maxFlushAttempts : ℕ := 10

/-- The wait loop of `endSession` (src/unnamed/part_001, lines
214-224): poll the single-flight flag up to the given budget.  In the
sequential model no concurrent task can clear the flag while waiting,
so the loop runs 0 or the full budget of polls; returns the number of
polls performed. -/
def waitForFlush (flushing : Bool) : ℕ → ℕ
  | 0 => 0
  | n + 1 => if flushing then waitForFlush flushing n + 1 else 0

/-- The pending-consolidation step of `endSession`
(src/unnamed/part_001, lines 227-231). -/
def mergePendingIntoActive (st : SessionManager) : SessionManager :=
  if st.pendingBuffer.length > 0 then
    { st with dataBuffer := st.dataBuffer ++ st.pendingBuffer,
              pendingBuffer := [] }
  else st

/-- The final flush loop of `endSession` (src/unnamed/part_001, lines
234-252): while attempts remain and the buffer is non-empty, call
`flushBuffer`; a thrown error is caught and breaks the loop.  Returns
the final state, the number of `flushBuffer` calls made, and whether a
call threw. -/
def finalFlushLoop (env : Env) (now : ℚ) :
    ℕ → SessionManager → SessionManager × ℕ × Bool
  | 0, st => (st, 0, false)
  | n + 1, st =>
      if st.dataBuffer.length > 0 then
        match (flushBuffer env now st).result with
        | .ok _ =>
            ((finalFlushLoop env now n (flushBuffer env now st).st).1,
              (finalFlushLoop env now n (flushBuffer env now st).st).2.1 + 1,
              (finalFlushLoop env now n (flushBuffer env now st).st).2.2)
        | .error _ => ((flushBuffer env now st).st, 1, true)
      else (st, 0, false)

/-- Counters of one `endSession` shutdown drain. -/
structure EndStats where
  waitPolls : ℕ
  sleepMsPerPoll : ℕ
  flushCalls : ℕ

/-- Models `SessionManager.endSession` (src/unnamed/part_001, lines 193-305).
Both the not-recording early path (lines 197-206) and the main path
(with the drain, the caught-and-logged `updateSession` failure, and
the reset at lines 279-287) are modelled; the `catch` block performs
the identical reset before rethrowing. -/
def endSession (env : Env) (now intendedEndTime : ℚ) (st : SessionManager) :
    SessionManager × Except String String × EndStats :=
  if !st.isRecording || optStrFalsy st.sessionId then
    ({ st with
        isRecording := false
        sessionId := none
        firstTimestampMap := []
        lastNormalizedTimestampMap := []
        expectedDeviceIds := []
        dataBuffer := []
        pendingBuffer := []
        sessionStartTime := none
        totalPointsReceived := 0 },
      .ok "", ⟨0, waitSleepMs, 0⟩)
  else
    let sid := st.sessionId.getD ""
    let polls := waitForFlush st.isFlushingBuffer maxWaitAttempts
    let st1 := mergePendingIntoActive st
    let res := finalFlushLoop env now maxFlushAttempts st1
    match env.updateSession sid intendedEndTime with
    | _ =>
      ({ res.1 with
          isRecording := false
          sessionId := none
          firstTimestampMap := []
          lastNormalizedTimestampMap := []
          expectedDeviceIds := []
          dataBuffer := []
          pendingBuffer := []
          sessionStartTime := none
          totalPointsReceived := 0 },
        .ok (res.1.sessionId.getD ""), ⟨polls, waitSleepMs, res.2.1⟩)

/-- Whether an external-call result is a normal return. -/
def exceptOk {α : Type} : Except String α → Bool
  | .ok _ => true
  | .error _ => false

/-! Concrete sample data used by the witness and counterexample
theorems below. -/

/-- A manager with the constructor defaults. -/
def m0 : SessionManager := mkSessionManager none 50 5000

/-- A sample record. -/
def rec0 : SensorDataInsert :=
  ⟨"s", "d", 0, 0, 0, 0, 0, 0, 0, 0, 0, 0, 0, 0, 0, 0⟩

/-- A sample record for device "1". -/
def recA : SensorDataInsert :=
  ⟨"sid1", "1", 0, 1, 0, 0, 0, 0, 0, 0, 0, 0, 0, 0, 0, 0⟩

/-- A second sample record for device "1". -/
def recB : SensorDataInsert :=
  ⟨"sid1", "1", 1 / 50, 1, 0, 0, 0, 0, 0, 0, 0, 0, 0, 0, 0, 0⟩

/-- An oracle on which every external call succeeds. -/
def okEnv : Env :=
  ⟨fun _ _ => .ok "sid1", fun _ _ => .ok (), fun _ _ => .ok (),
    .ok ["p1"], fun _ => .ok (), fun _ => .ok ()⟩

/-- An oracle on which every batch insert fails but individual inserts
succeed. -/
def failBatchEnv : Env :=
  ⟨fun _ _ => .ok "sid1", fun _ _ => .ok (), fun _ _ => .ok (),
    .ok ["p1"], fun _ => .error "db down", fun _ => .ok ()⟩

/-- A sample interleaved call sequence for two devices. -/
def demoCalls : List (String × ℚ) :=
  [("a", 123), ("b", 7), ("a", 999), ("a", 5)]

/-- An idle manager whose pending buffer is non-empty. -/
def cexStart : SessionManager := { m0 with pendingBuffer := [rec0] }

/-- A recording manager with two buffered records. -/
def c4State : SessionManager :=
  { m0 with isRecording := true, sessionId := some "sid1",
            dataBuffer := [recA, recB] }

/-- A manager whose single-flight flag is set. -/
def flushingState : SessionManager := { m0 with isFlushingBuffer := true }

/-! ## Helper lemmas -/

theorem mapLookup_set_self (m : List (String × ℚ)) (k : String) (v : ℚ) :
    mapLookup (mapSet m k v) k = some v := by
  simp [mapSet, mapLookup]

theorem mapLookup_set_ne (m : List (String × ℚ)) (k k' : String) (v : ℚ)
    (h : k' ≠ k) : mapLookup (mapSet m k' v) k = mapLookup m k := by
  simp [mapSet, mapLookup, h]

theorem round2_nat_mul (n : ℕ) :
    round2 ((n : ℚ) * (1 / 50)) = (n : ℚ) * (1 / 50) := by
  unfold round2
  have h : (n : ℚ) * (1 / 50) * 100 = ((2 * n : ℕ) : ℚ) := by
    push_cast
    ring
  rw [h, round_natCast]
  push_cast
  ring

theorem step_arith (k : ℕ) :
    (k : ℚ) * (1 / 50) + 1 / 50 = ((k + 1 : ℕ) : ℚ) * (1 / 50) := by
  push_cast
  ring

theorem outputsFor_nil (d : String) : outputsFor d [] = [] := rfl

theorem outputsFor_cons (d d' : String) (t : ℚ) (outs : List (String × ℚ)) :
    outputsFor d ((d', t) :: outs) =
      if d' == d then t :: outputsFor d outs else outputsFor d outs := by
  simp only [outputsFor, List.filter_cons]
  split <;> simp_all

theorem normalizeTimestamp_other (st : SessionManager) (d' : String) (r : ℚ)
    (d : String) (h : d' ≠ d) :
    mapLookup (normalizeTimestamp st d' r).1.firstTimestampMap d =
        mapLookup st.firstTimestampMap d ∧
    mapLookup (normalizeTimestamp st d' r).1.lastNormalizedTimestampMap d =
        mapLookup st.lastNormalizedTimestampMap d ∧
    (normalizeTimestamp st d' r).1.timestampInterval = st.timestampInterval := by
  unfold normalizeTimestamp
  split <;> simp [mapLookup_set_ne _ _ _ _ h]

theorem insertIndividually_trace (env : Env) :
    ∀ l, (insertIndividually env l).2 = l := by
  intro l
  induction l with
  | nil => rfl
  | cons r rs ih =>
      simp only [insertIndividually]
      cases hr : insertSensorData env r <;> simp [ih]

theorem insertIndividually_count (env : Env) :
    ∀ l, (insertIndividually env l).1 =
      l.countP (fun r => singleOk env r) := by
  intro l
  induction l with
  | nil => rfl
  | cons r rs ih =>
      simp only [insertIndividually, List.countP_cons]
      cases hr : insertSensorData env r <;>
        simp [singleOk, hr, ih, Nat.add_comm]

theorem processChunks_count (env : Env) :
    ∀ cs, (processChunks env cs).1 =
      (cs.map (fun c => if chunkBatchOk env c then c.length
        else c.countP (fun r => singleOk env r))).sum := by
  intro cs
  induction cs with
  | nil => rfl
  | cons c cs ih =>
      simp only [processChunks, List.map_cons, List.sum_cons]
      cases hb : (insertSensorDataBatch env c).1 <;>
        simp [chunkBatchOk, hb, ih, insertIndividually_count]

theorem processChunks_trace (env : Env) :
    ∀ cs, (processChunks env cs).2 =
      (cs.filter (fun c => !chunkBatchOk env c)).flatten := by
  intro cs
  induction cs with
  | nil => rfl
  | cons c cs ih =>
      simp only [processChunks, List.filter_cons]
      cases hb : (insertSensorDataBatch env c).1 <;>
        simp [chunkBatchOk, hb, ih, insertIndividually_trace]

theorem waitForFlush_le (f : Bool) : ∀ n, waitForFlush f n ≤ n := by
  intro n
  induction n with
  | zero => simp [waitForFlush]
  | succ n ih =>
      simp only [waitForFlush]
      split
      · exact Nat.succ_le_succ ih
      · exact Nat.zero_le _

theorem waitForFlush_true : ∀ n, waitForFlush true n = n := by
  intro n
  induction n with
  | zero => rfl
  | succ n ih => simp [waitForFlush, ih]

theorem finalFlushLoop_calls_le (env : Env) (now : ℚ) :
    ∀ (fuel : ℕ) (st : SessionManager),
      (finalFlushLoop env now fuel st).2.1 ≤ fuel := by
  intro fuel
  induction fuel with
  | zero => intro st; simp [finalFlushLoop]
  | succ n ih =>
      intro st
      rw [finalFlushLoop]
      split
      · split
        · exact Nat.succ_le_succ (ih _)
        · exact Nat.succ_le_succ (Nat.zero_le _)
      · exact Nat.zero_le _

theorem finalFlushLoop_stop (env : Env) (now : ℚ) :
    ∀ (fuel : ℕ) (st : SessionManager),
      (finalFlushLoop env now fuel st).1.dataBuffer = [] ∨
      (finalFlushLoop env now fuel st).2.1 = fuel ∨
      (finalFlushLoop env now fuel st).2.2 = true := by
  intro fuel
  induction fuel with
  | zero => intro st; right; left; simp [finalFlushLoop]
  | succ n ih =>
      intro st
      rw [finalFlushLoop]
      split
      · split
        · rcases ih (flushBuffer env now st).st with h | h | h
          · left
            exact h
          · right; left
            simp [h]
          · right; right
            exact h
        · right; right
          rfl
      · left
        next hlen =>
          simpa using Nat.le_zero.mp (Nat.not_lt.mp hlen)

/-! ## Claim theorems -/

/-- Claim C2: if `flushBuffer` is entered while the single-flight flag
`isFlushingBuffer` is already set, it returns `false` immediately, with
the state (in particular both buffers) unchanged and no insert calls
issued, so no second snapshot-and-clear of the active buffer can begin
before the first flush clears the flag. -/
theorem flushBuffer_single_flight (env : Env) (now : ℚ) (st : SessionManager)
    (h : st.isFlushingBuffer = true) :
    flushBuffer env now st = ⟨st, .ok false, 0, []⟩ := by
  simp [flushBuffer, h]

/-- Witness for C2 at a concrete flagged state. -/
theorem flushBuffer_single_flight_witness :
    flushBuffer okEnv 0 flushingState = ⟨flushingState, .ok false, 0, []⟩ :=
  flushBuffer_single_flight okEnv 0 flushingState rfl

/-- Claim C9: when no session is in progress (`isRecording` false),
`addSensorData` returns `false` and leaves the whole manager state
unchanged, for every oracle, clock value and input record. -/
theorem addSensorData_not_recording (env : Env) (now : ℚ)
    (st : SessionManager) (data : List ℚ) (h : st.isRecording = false) :
    addSensorData env now st data = (st, .ok false) := by
  simp [addSensorData, h]

/-- Witness for C9 at a freshly constructed manager. -/
theorem addSensorData_not_recording_witness :
    addSensorData okEnv 0 m0 [1, 100, 50, 0, 0, 0, 0, 0, 0, 0, 0, 0, 0, 0, 0]
      = (m0, .ok false) :=
  addSensorData_not_recording okEnv 0 m0
    [1, 100, 50, 0, 0, 0, 0, 0, 0, 0, 0, 0, 0, 0, 0] rfl

/-- Claim C10: `insertSensorDataBatch` on an empty array returns `true`
immediately and issues no storage insert call, for every oracle. -/
theorem insertSensorDataBatch_empty (env : Env) :
    insertSensorDataBatch env [] = (.ok true, 0) := rfl

/-- Claim C3: `endSession` unconditionally resets the internal state,
for every oracle (hence whether the drain, the metadata update, or
nothing at all fails): afterwards the manager is idle (`isRecording`
false, `sessionId` null), both buffers are empty, the per-device
normalizer maps and the expected-device set are cleared.  The returned
state is the one the caller observes even on the error path, so any
error is reported only after this reset. -/
theorem endSession_unconditional_reset (env : Env) (now t : ℚ)
    (st : SessionManager) :
    (endSession env now t st).1.isRecording = false ∧
    (endSession env now t st).1.sessionId = none ∧
    (endSession env now t st).1.dataBuffer = [] ∧
    (endSession env now t st).1.pendingBuffer = [] ∧
    (endSession env now t st).1.firstTimestampMap = [] ∧
    (endSession env now t st).1.lastNormalizedTimestampMap = [] ∧
    (endSession env now t st).1.expectedDeviceIds = [] := by
  unfold endSession
  split <;> simp

/-- Claim C6: storage errors never propagate to the ingestion caller:
for every oracle (including ones whose batch and individual inserts
always fail), `flushBuffer` and `addSensorData` always return normally
rather than raising. -/
theorem storage_errors_never_propagate (env : Env) (now : ℚ)
    (st : SessionManager) (data : List ℚ) :
    exceptOk (flushBuffer env now st).result = true ∧
    exceptOk (addSensorData env now st data).2 = true := by
  constructor
  · unfold flushBuffer
    split
    · rfl
    · split
      · split <;> rfl
      · rfl
  · unfold addSensorData
    dsimp only
    repeat' split
    all_goals rfl

/-- Claim C7: whenever `flushBuffer` is entered with the single-flight
flag unset, then on return the pending buffer is empty, its former
records are the active buffer's contents (appended, in arrival order,
after the records the active buffer holds at merge time — none in a
completed sequential flush), the flag is false again regardless of
insert failures, and the call reports an attempted flush exactly when
the active or the pending buffer was non-empty at entry. -/
theorem flushBuffer_merge_and_report (env : Env) (now : ℚ)
    (st : SessionManager) (h : st.isFlushingBuffer = false) :
    (flushBuffer env now st).st.pendingBuffer = [] ∧
    (flushBuffer env now st).st.dataBuffer = st.pendingBuffer ∧
    (flushBuffer env now st).st.isFlushingBuffer = false ∧
    (flushBuffer env now st).result =
      .ok (!st.dataBuffer.isEmpty || !st.pendingBuffer.isEmpty) := by
  unfold flushBuffer
  by_cases h1 : st.dataBuffer.length = 0
  · by_cases h2 : st.pendingBuffer.length > 0
    · have h2ne : st.pendingBuffer ≠ [] := by
        intro hx
        rw [hx] at h2
        simp at h2
      simp [h, h1, h2, List.length_eq_zero.mp h1,
        List.isEmpty_iff, h2ne]
    · have h2e : st.pendingBuffer = [] := by
        simpa using Nat.le_zero.mp (Nat.not_lt.mp h2)
      simp [h, h1, h2, List.length_eq_zero.mp h1, h2e,
        List.isEmpty_iff]
  · have h1ne : st.dataBuffer ≠ [] := fun hx => h1 (by simp [hx])
    by_cases h2 : st.pendingBuffer.length > 0
    · simp [h, h1, h2, h1ne, List.isEmpty_iff]
    · have h2e : st.pendingBuffer = [] := by
        simpa using Nat.le_zero.mp (Nat.not_lt.mp h2)
      simp [h, h1, h2, h1ne, h2e, List.isEmpty_iff]

/-- Witness for C7 at a concrete unflagged state with a non-empty
active buffer. -/
theorem flushBuffer_merge_and_report_witness :
    (flushBuffer failBatchEnv 0 c4State).st.pendingBuffer = [] ∧
    (flushBuffer failBatchEnv 0 c4State).st.dataBuffer =
      c4State.pendingBuffer ∧
    (flushBuffer failBatchEnv 0 c4State).st.isFlushingBuffer = false ∧
    (flushBuffer failBatchEnv 0 c4State).result =
      .ok (!c4State.dataBuffer.isEmpty || !c4State.pendingBuffer.isEmpty) :=
  flushBuffer_merge_and_report failBatchEnv 0 c4State rfl

/-- Claim C8: the shutdown drain in `endSession` is bounded: the wait
loop polls the single-flight flag at most 100 times (and, when the
flag is stuck, exactly exhausts the 100-poll budget and proceeds
anyway) at the fixed 50 ms sleep, the pending records are merged into
the active buffer, and the final flush loop calls `flushBuffer` at
most 10 times, stopping only because the active buffer is empty, the
attempt budget is exhausted, or a call raised. -/
theorem endSession_drain_bounded (env : Env) (now t : ℚ)
    (st : SessionManager) :
    (endSession env now t st).2.2.waitPolls ≤ 100 ∧
    (endSession env now t st).2.2.sleepMsPerPoll = 50 ∧
    (endSession env now t st).2.2.flushCalls ≤ 10 ∧
    waitForFlush true maxWaitAttempts = 100 ∧
    (mergePendingIntoActive st).pendingBuffer = [] ∧
    (mergePendingIntoActive st).dataBuffer =
      st.dataBuffer ++ st.pendingBuffer ∧
    (∀ (fuel : ℕ) (st0 : SessionManager),
      (finalFlushLoop env now fuel st0).2.1 ≤ fuel ∧
      ((finalFlushLoop env now fuel st0).1.dataBuffer = [] ∨
        (finalFlushLoop env now fuel st0).2.1 = fuel ∨
        (finalFlushLoop env now fuel st0).2.2 = true)) := by
  refine ⟨?_, ?_, ?_, ?_, ?_, ?_, ?_⟩
  · unfold endSession
    split
    · simp
    · simpa [maxWaitAttempts] using
        waitForFlush_le st.isFlushingBuffer maxWaitAttempts
  · unfold endSession
    split <;> simp [waitSleepMs]
  · unfold endSession
    split
    · simp
    · simpa [maxFlushAttempts] using
        finalFlushLoop_calls_le env now maxFlushAttempts
          (mergePendingIntoActive st)
  · exact waitForFlush_true maxWaitAttempts
  · unfold mergePendingIntoActive
    split
    · rfl
    · next h2 =>
        simpa using Nat.le_zero.mp (Nat.not_lt.mp h2)
  · unfold mergePendingIntoActive
    split
    · rfl
    · next h2 =>
        have : st.pendingBuffer = [] := by
          simpa using Nat.le_zero.mp (Nat.not_lt.mp h2)
        simp [this]
  · intro fuel st0
    exact ⟨finalFlushLoop_calls_le env now fuel st0,
      finalFlushLoop_stop env now fuel st0⟩

/-- Claim C4: in a flush that snapshots a non-empty active buffer, the
individual-insert trace is exactly the concatenation of the chunks
whose batch insert failed — so every record of a failed chunk is
retried individually exactly once, in order; the accumulated success
count is the number of records in successfully batch-inserted chunks
plus the number of individually successful records; and no snapshot
record is re-queued: on return the active buffer holds only the former
pending records and the pending buffer is empty. -/
theorem flushBuffer_chunk_fallback (env : Env) (now : ℚ)
    (st : SessionManager) (h1 : st.isFlushingBuffer = false)
    (h2 : st.dataBuffer ≠ []) :
    (flushBuffer env now st).singleCalls =
      ((chunksOf 10 st.dataBuffer).filter
        (fun c => !chunkBatchOk env c)).flatten ∧
    (flushBuffer env now st).successCount =
      ((chunksOf 10 st.dataBuffer).map
        (fun c => if chunkBatchOk env c then c.length
          else c.countP (fun r => singleOk env r))).sum ∧
    (flushBuffer env now st).st.dataBuffer = st.pendingBuffer ∧
    (flushBuffer env now st).st.pendingBuffer = [] := by
  have hlen : ¬ st.dataBuffer.length = 0 := by
    simpa [List.length_eq_zero] using h2
  unfold flushBuffer
  by_cases hp : st.pendingBuffer.length > 0
  · simp [h1, hlen, hp, processChunks_count, processChunks_trace]
  · have hpe : st.pendingBuffer = [] := by
      simpa using Nat.le_zero.mp (Nat.not_lt.mp hp)
    simp [h1, hlen, hp, hpe, processChunks_count, processChunks_trace]

/-- Witness for C4 on a two-record buffer whose only chunk's batch
insert fails while individual inserts succeed. -/
theorem flushBuffer_chunk_fallback_witness :
    (flushBuffer failBatchEnv 0 c4State).singleCalls =
      ((chunksOf 10 c4State.dataBuffer).filter
        (fun c => !chunkBatchOk failBatchEnv c)).flatten ∧
    (flushBuffer failBatchEnv 0 c4State).successCount =
      ((chunksOf 10 c4State.dataBuffer).map
        (fun c => if chunkBatchOk failBatchEnv c then c.length
          else c.countP (fun r => singleOk failBatchEnv r))).sum ∧
    (flushBuffer failBatchEnv 0 c4State).st.dataBuffer =
      c4State.pendingBuffer ∧
    (flushBuffer failBatchEnv 0 c4State).st.pendingBuffer = [] :=
  flushBuffer_chunk_fallback failBatchEnv 0 c4State rfl (by decide)

/-- Claim C5 counterexample: `startSession` does not reset the pending
buffer.  Called on an idle manager whose pending buffer holds one
record, with session-metadata creation succeeding, the pending buffer
still holds that record afterwards — refuting the claim that both the
active and the pending buffer are reset. -/
theorem startSession_pending_not_reset_cex :
    cexStart.isRecording = false ∧
    (startSession okEnv 0 none [] cexStart).1.pendingBuffer = [rec0] ∧
    ([rec0] : List SensorDataInsert) ≠ [] :=
  ⟨rfl, rfl, by decide⟩

/-- Claim C5 (amended): `startSession`, called when no session is in
progress and session-metadata creation succeeds, resets the active
buffer and the per-device normalizer maps, records the expected-device
set from the given mappings, and transitions the manager to Recording
with the new session id — but leaves the pending buffer unchanged
rather than resetting it. -/
theorem startSession_resets_active_not_pending (env : Env) (now : ℚ)
    (name : Option String) (mappings : List (String × String))
    (st : SessionManager) (id : String) (h1 : st.isRecording = false)
    (h2 : env.createSession (sessionNameOf name now) now = .ok id) :
    (startSession env now name mappings st).1.dataBuffer = [] ∧
    (startSession env now name mappings st).1.firstTimestampMap = [] ∧
    (startSession env now name mappings st).1.lastNormalizedTimestampMap
      = [] ∧
    (startSession env now name mappings st).1.expectedDeviceIds =
      mappings.map (fun m => m.2) ∧
    (startSession env now name mappings st).1.isRecording = true ∧
    (startSession env now name mappings st).1.sessionId = some id ∧
    (startSession env now name mappings st).1.pendingBuffer =
      st.pendingBuffer := by
  unfold startSession
  rw [h1, h2]
  simp only [Bool.false_eq_true, if_false]
  split <;> simp

/-- Witness for C5's amended statement at a concrete idle manager. -/
theorem startSession_resets_active_not_pending_witness :
    (startSession okEnv 0 none [("p1", "d1")] m0).1.dataBuffer = [] ∧
    (startSession okEnv 0 none [("p1", "d1")] m0).1.firstTimestampMap
      = [] ∧
    (startSession okEnv 0 none
        [("p1", "d1")] m0).1.lastNormalizedTimestampMap = [] ∧
    (startSession okEnv 0 none [("p1", "d1")] m0).1.expectedDeviceIds =
      [("p1", "d1")].map (fun m => m.2) ∧
    (startSession okEnv 0 none [("p1", "d1")] m0).1.isRecording = true ∧
    (startSession okEnv 0 none [("p1", "d1")] m0).1.sessionId =
      some "sid1" ∧
    (startSession okEnv 0 none [("p1", "d1")] m0).1.pendingBuffer =
      m0.pendingBuffer :=
  startSession_resets_active_not_pending okEnv 0 none [("p1", "d1")]
    m0 "sid1" rfl rfl

/-- Continuation invariant for the per-device normalizer: once a
device has a baseline and its last normalized value is `k/50`, the
normalized timestamps it receives from any further interleaved call
sequence continue the arithmetic progression at `(k+1)/50`. -/
theorem runNormalizeAll_cont (d : String) (calls : List (String × ℚ)) :
    ∀ (st : SessionManager) (k : ℕ),
      st.timestampInterval = 1 / 50 →
      (mapLookup st.firstTimestampMap d).isSome = true →
      mapLookup st.lastNormalizedTimestampMap d =
        some ((k : ℚ) * (1 / 50)) →
      outputsFor d (runNormalizeAll st calls).2 =
        (List.range (calls.countP (fun p => p.1 == d))).map
          (fun n => ((k + 1 + n : ℕ) : ℚ) * (1 / 50)) := by
  induction calls with
  | nil =>
      intro st k _ _ _
      simp [runNormalizeAll, outputsFor]
  | cons c rest ih =>
      intro st k hInt hFirst hLast
      obtain ⟨d', r⟩ := c
      by_cases hd : d' = d
      · subst hd
        have hn1 : (normalizeTimestamp st d' r).1 =
            { st with lastNormalizedTimestampMap := mapSet st.lastNormalizedTimestampMap d' ((k : ℚ) * (1 / 50) + 1 / 50) } := by
          simp [normalizeTimestamp, hFirst, hLast, hInt]
        have hn2 : (normalizeTimestamp st d' r).2 =
            ((k + 1 : ℕ) : ℚ) * (1 / 50) := by
          simp only [normalizeTimestamp, hFirst, Bool.not_true,
            Bool.false_eq_true, if_false, hLast, Option.getD_some, hInt]
          rw [step_arith k, round2_nat_mul]
        have hih := ih (normalizeTimestamp st d' r).1 (k + 1)
          (by rw [hn1]; exact hInt)
          (by rw [hn1]; exact hFirst)
          (by rw [hn1]
              show mapLookup (mapSet st.lastNormalizedTimestampMap d' ((k : ℚ) * (1 / 50) + 1 / 50)) d' = some (((k + 1 : ℕ) : ℚ) * (1 / 50))
              rw [mapLookup_set_self, step_arith k])
        simp only [runNormalizeAll]
        rw [outputsFor_cons]
        simp only [beq_self_eq_true, if_true]
        rw [hn2, hih]
        have hcnt : (((d', r) : String × ℚ) :: rest).countP
            (fun p => p.1 == d') = rest.countP (fun p => p.1 == d') + 1 := by
          simp [List.countP_cons]
        have hfe : ((fun n => ((k + 1 + n : ℕ) : ℚ) * (1 / 50)) ∘ Nat.succ) =
            (fun n : ℕ => ((k + 1 + 1 + n : ℕ) : ℚ) * (1 / 50)) := by
          funext n
          simp only [Function.comp_apply]
          push_cast
          ring
        rw [hcnt, List.range_succ_eq_map, List.map_cons, List.map_map, hfe]
      · have hno := normalizeTimestamp_other st d' r d hd
        have hbeq : (d' == d) = false := by
          simp [hd]
        simp only [runNormalizeAll]
        rw [outputsFor_cons, hbeq]
        simp only [Bool.false_eq_true, if_false]
        rw [List.countP_cons]
        simp only [hbeq, if_false, Nat.add_zero]
        exact ih (normalizeTimestamp st d' r).1 k
          (by rw [hno.2.2]; exact hInt)
          (by rw [hno.1]; exact hFirst)
          (by rw [hno.2.1]; exact hLast)

/-- Fresh-device form of the normalizer invariant: a device with no
baseline yet receives exactly the arithmetic sequence starting at 0,
whatever interleaved calls other devices make. -/
theorem runNormalizeAll_fresh (d : String) (calls : List (String × ℚ)) :
    ∀ (st : SessionManager),
      st.timestampInterval = 1 / 50 →
      mapLookup st.firstTimestampMap d = none →
      outputsFor d (runNormalizeAll st calls).2 =
        (List.range (calls.countP (fun p => p.1 == d))).map
          (fun n : ℕ => (n : ℚ) * (1 / 50)) := by
  induction calls with
  | nil =>
      intro st _ _
      simp [runNormalizeAll, outputsFor]
  | cons c rest ih =>
      intro st hInt hFresh
      obtain ⟨d', r⟩ := c
      by_cases hd : d' = d
      · subst hd
        have hcond : (mapLookup st.firstTimestampMap d').isSome = false := by
          rw [hFresh]
          rfl
        have hn1 : (normalizeTimestamp st d' r).1 =
            { st with firstTimestampMap := mapSet st.firstTimestampMap d' r, lastNormalizedTimestampMap := mapSet st.lastNormalizedTimestampMap d' 0 } := by
          simp [normalizeTimestamp, hcond]
        have hn2 : (normalizeTimestamp st d' r).2 = 0 := by
          simp [normalizeTimestamp, hcond]
        have hcont := runNormalizeAll_cont d' rest
          (normalizeTimestamp st d' r).1 0
          (by rw [hn1]; exact hInt)
          (by rw [hn1]
              show (mapLookup (mapSet st.firstTimestampMap d' r) d').isSome
                = true
              rw [mapLookup_set_self]
              rfl)
          (by rw [hn1]
              show mapLookup (mapSet st.lastNormalizedTimestampMap d' 0) d'
                = some (((0 : ℕ) : ℚ) * (1 / 50))
              rw [mapLookup_set_self]
              norm_num)
        simp only [runNormalizeAll]
        rw [outputsFor_cons]
        simp only [beq_self_eq_true, if_true]
        rw [hn2, hcont]
        have hcnt : (((d', r) : String × ℚ) :: rest).countP
            (fun p => p.1 == d') = rest.countP (fun p => p.1 == d') + 1 := by
          simp [List.countP_cons]
        have hfe : ((fun n => ((n : ℕ) : ℚ) * (1 / 50)) ∘ Nat.succ) =
            (fun n : ℕ => ((0 + 1 + n : ℕ) : ℚ) * (1 / 50)) := by
          funext n
          simp only [Function.comp_apply]
          push_cast
          ring
        rw [hcnt, List.range_succ_eq_map, List.map_cons, List.map_map, hfe]
        all_goals norm_num
      · have hno := normalizeTimestamp_other st d' r d hd
        have hbeq : (d' == d) = false := by
          simp [hd]
        simp only [runNormalizeAll]
        rw [outputsFor_cons, hbeq]
        simp only [Bool.false_eq_true, if_false]
        rw [List.countP_cons]
        simp only [hbeq, if_false, Nat.add_zero]
        exact ih (normalizeTimestamp st d' r).1
          (by rw [hno.2.2]; exact hInt)
          (by rw [hno.1]; exact hFresh)

/-- Claim C1: within one session (the normalizer holds no baseline yet
for the device) and with the configured 0.02 s interval, the
normalized timestamps returned for a device's accepted records form
the arithmetic sequence 0, i, 2i, ...: the first call returns 0 and
each later one exceeds its predecessor by exactly 1/50, independent of
the raw timestamp values supplied and of interleaved calls for other
devices. -/
theorem normalized_timestamps_arithmetic (st : SessionManager)
    (d : String) (calls : List (String × ℚ))
    (hInt : st.timestampInterval = 1 / 50)
    (hFresh : mapLookup st.firstTimestampMap d = none) :
    outputsFor d (runNormalizeAll st calls).2 =
      (List.range (calls.countP (fun p => p.1 == d))).map
        (fun n : ℕ => (n : ℚ) * (1 / 50)) :=
  runNormalizeAll_fresh d calls st hInt hFresh

/-- Witness for C1 on a fresh manager and an interleaved two-device
call sequence. -/
theorem normalized_timestamps_arithmetic_witness :
    outputsFor "a" (runNormalizeAll m0 demoCalls).2 =
      (List.range (demoCalls.countP (fun p => p.1 == "a"))).map
        (fun n : ℕ => (n : ℚ) * (1 / 50)) :=
  normalized_timestamps_arithmetic m0 "a" demoCalls rfl rfl

end Radian
